import Mathlib

/-!
Shallow embedding of the multisig wallet from `src/app/main.ts`
(class `MultisigWallet`), together with the parts of its external
cryptographic/bitcoin library that the wallet's observable behaviour
depends on (script compilation/decompilation, payment templates,
transaction sighashing).  Bytes are modelled as `Nat` (values < 256 in
all uses), byte strings as `List Nat`.  External cryptographic
primitives (hashes, ECDSA, BIP39/BIP32) are a parameter `Prims` of the
model: the wallet code only forwards their outputs, so every structural
property is stated either for all providers or at an explicit concrete
provider.
-/

/-- Script opcode constants (subset used by the wallet). -/
def OP_0 : Nat := 0
def OP_PUSHDATA1 : Nat := 76
def OP_PUSHDATA2 : Nat := 77
def OP_PUSHDATA4 : Nat := 78
def OP_1NEGATE : Nat := 79
def OP_RESERVED : Nat := 80
def OP_1 : Nat := 81
def OP_16 : Nat := 96
def OP_DUP : Nat := 118
def OP_EQUALVERIFY : Nat := 136
def OP_HASH160 : Nat := 169
def OP_CHECKSIG : Nat := 172
def OP_CHECKMULTISIG : Nat := 174

/-- Sighash type flags (`bitcoin.Transaction.SIGHASH_ALL` / `SIGHASH_NONE`). -/
def SIGHASH_ALL : Nat := 1
def SIGHASH_NONE : Nat := 2

/-- A decompiled script element: either an opcode or a pushed data blob
(`bitcoinjs-lib`'s `(number | Buffer)[]` chunks). -/
inductive Chunk where
  | op : Nat → Chunk
  | data : List Nat → Chunk
deriving DecidableEq

/-- `asMinimalOP` of bitcoinjs-lib `script.js`: the minimal-opcode
canonicalisation of a small data push (empty ↦ OP_0, single byte 1–16 ↦
OP_1..OP_16, single byte 0x81 ↦ OP_1NEGATE). -/
def asMinimalOP (b : List Nat) : Option Nat :=
  match b with
  | [] => some OP_0
  | [x] =>
      if 1 ≤ x ∧ x ≤ 16 then some (OP_RESERVED + x)
      else if x = 129 then some OP_1NEGATE
      else none
  | _ => none

/-- Little-endian pushdata length encoding of bitcoinjs-lib
(`pushdata.encode`): direct length byte below 0x4c, else
OP_PUSHDATA1/2/4 with a little-endian length. -/
def pushdataEncode (b : List Nat) : List Nat :=
  if b.length < 76 then b.length :: b
  else if b.length < 256 then OP_PUSHDATA1 :: b.length :: b
  else if b.length < 65536 then
    OP_PUSHDATA2 :: (b.length % 256) :: (b.length / 256 % 256) :: b
  else
    OP_PUSHDATA4 :: (b.length % 256) :: (b.length / 256 % 256)
      :: (b.length / 65536 % 256) :: (b.length / 16777216 % 256) :: b

/-- One chunk of `bitcoin.script.compile`: opcodes become a single byte,
data blobs become a minimal push. -/
def compileChunk : Chunk → List Nat
  | Chunk.op c => [c]
  | Chunk.data b =>
      match asMinimalOP b with
      | some c => [c]
      | none => pushdataEncode b

/-- `bitcoin.script.compile`: concatenation of the encoded chunks. -/
def compile (cs : List Chunk) : List Nat :=
  (cs.map compileChunk).flatten

/-- Worker for `decompile`, with fuel bounded by the byte count.
Mirrors bitcoinjs-lib `script.decompile`: a leading byte in 1..75 (or an
OP_PUSHDATAn marker) introduces a data push, whose bytes are re-minimised
through `asMinimalOP`; any other byte is an opcode chunk; truncated
pushes make the whole decompilation fail (`null`). -/
def decompileGo : Nat → List Nat → Option (List Chunk)
  | _, [] => some []
  | 0, _ :: _ => none
  | fuel + 1, c :: rest =>
      if 1 ≤ c ∧ c ≤ 75 then
        if rest.length < c then none
        else
          (decompileGo fuel (rest.drop c)).map (fun tl =>
            (match asMinimalOP (rest.take c) with
             | some o => Chunk.op o
             | none => Chunk.data (rest.take c)) :: tl)
      else if c = OP_PUSHDATA1 then
        match rest with
        | [] => none
        | n :: rest2 =>
          if rest2.length < n then none
          else
            (decompileGo fuel (rest2.drop n)).map (fun tl =>
              (match asMinimalOP (rest2.take n) with
               | some o => Chunk.op o
               | none => Chunk.data (rest2.take n)) :: tl)
      else if c = OP_PUSHDATA2 then
        match rest with
        | a :: b :: rest2 =>
          let n := a + 256 * b
          if rest2.length < n then none
          else
            (decompileGo fuel (rest2.drop n)).map (fun tl =>
              (match asMinimalOP (rest2.take n) with
               | some o => Chunk.op o
               | none => Chunk.data (rest2.take n)) :: tl)
        | _ => none
      else if c = OP_PUSHDATA4 then
        match rest with
        | a :: b :: c2 :: d :: rest2 =>
          let n := a + 256 * b + 65536 * c2 + 16777216 * d
          if rest2.length < n then none
          else
            (decompileGo fuel (rest2.drop n)).map (fun tl =>
              (match asMinimalOP (rest2.take n) with
               | some o => Chunk.op o
               | none => Chunk.data (rest2.take n)) :: tl)
        | _ => none
      else
        (decompileGo fuel rest).map (fun tl => Chunk.op c :: tl)

/-- `bitcoin.script.decompile`. -/
def decompile (bs : List Nat) : Option (List Chunk) :=
  decompileGo bs.length bs

/-- Network parameters (the fields of `bitcoin.Network` the wallet's
addresses depend on): base58 version bytes and the bech32
human-readable part. -/
structure Network where
  pubKeyHash : Nat
  scriptHash : Nat
  bech32Hrp : String
deriving DecidableEq

/-- `bitcoin.networks.testnet`. -/
def testnet : Network := ⟨111, 196, "tb"⟩

/-- `bitcoin.networks.bitcoin` (production network). -/
def bitcoinNet : Network := ⟨0, 5, "bc"⟩

/-- An address, kept in its structural pre-encoding form: a Base58Check
address is determined by its version byte and 20-byte payload, a bech32
address by the human-readable part, witness version and program.  The
string encodings themselves are injective functions of these fields and
live in the external library. -/
inductive Addr where
  | base58 : Nat → List Nat → Addr
  | bech32 : String → Nat → List Nat → Addr
deriving DecidableEq

/-- The `{ p2sh, p2wsh }` address pair cached by the wallet. -/
structure Addresses where
  p2sh : Addr
  p2wsh : Addr
deriving DecidableEq

/-- `KeyPairInfo` of `main.ts`: mnemonic (as its word list), derivation
path string, public key bytes, optional private key bytes. -/
structure KeyPairInfo where
  mnemonic : List String
  path : String
  publicKey : List Nat
  privateKey : Option (List Nat)
deriving DecidableEq

/-- `WalletConfig` of `main.ts`. -/
structure WalletConfig where
  network : Option Network
  derivationPath : Option String
deriving DecidableEq

/-- The empty config object `{}`. -/
def emptyConfig : WalletConfig := ⟨none, none⟩

/-- A parsed transaction, reduced to what the wallet touches: the list
of input scripts (`setInputScript` writes `ins[i].script`; sighashing
and out-of-range detection only use `ins.length`). -/
structure Tx where
  ins : List (List Nat)
deriving DecidableEq

/-- A node returned by BIP32 `root.derivePath`: public key and optional
private key. -/
structure DerivedNode where
  publicKey : List Nat
  privateKey : Option (List Nat)
deriving DecidableEq

/-- The external primitive provider: BIP39 mnemonic generation (indexed
by the entropy strength in bits and a call counter standing for the
consumed randomness), mnemonic-to-seed, BIP32 path derivation from a
seed, hash160/sha256, the legacy sighash digest, raw ECDSA signing and
transaction parsing.  The wallet only forwards these values. -/
structure Prims where
  generateMnemonic : Nat → Nat → List String
  mnemonicToSeed : List String → List Nat
  derivePath : List Nat → Network → String → DerivedNode
  hash160 : List Nat → List Nat
  sha256 : List Nat → List Nat
  sigHash : Tx → Nat → List Nat → Nat → List Nat
  ecSign : List Nat → List Nat → List Nat
  parseTx : String → Option Tx

/-- The constant hash `ONE` that bitcoinjs-lib's
`Transaction.hashForSignature` returns for an out-of-range input index
instead of raising an error. -/
def ONE : List Nat := 1 :: List.replicate 31 0

/-- `Transaction.hashForSignature(inIndex, prevOutScript, hashType)`:
returns the constant `ONE` when the index is past the last input,
otherwise the legacy sighash digest. -/
def Tx.hashForSignature (P : Prims) (tx : Tx) (inIndex : Nat)
    (prevOutScript : List Nat) (hashType : Nat) : List Nat :=
  if tx.ins.length ≤ inIndex then ONE
  else P.sigHash tx inIndex prevOutScript hashType

/-- `bitcoin.payments.p2pkh({ pubkey }).output`:
`OP_DUP OP_HASH160 <hash160(pubkey)> OP_EQUALVERIFY OP_CHECKSIG`. -/
def p2pkhOutput (P : Prims) (pubkey : List Nat) : List Nat :=
  compile [Chunk.op OP_DUP, Chunk.op OP_HASH160,
           Chunk.data (P.hash160 pubkey),
           Chunk.op OP_EQUALVERIFY, Chunk.op OP_CHECKSIG]

/-- The `MultisigWallet` object state: policy, network, derivation path
template, accumulated key pairs, cached redeem script and addresses. -/
structure MultisigWallet where
  requiredSignatures : Int
  totalSigners : Int
  network : Network
  derivationPath : String
  keyPairs : List KeyPairInfo
  redeemScript : Option (List Nat)
  addresses : Option Addresses
deriving DecidableEq

instance : Inhabited MultisigWallet :=
  ⟨⟨0, 0, testnet, "", [], none, none⟩⟩

/-- The `MultisigWallet` constructor: rejects only
`requiredSignatures > totalSigners` (error
"Invalid signature requirements"), hard-codes the testnet network, and
defaults the derivation path to `m/49'/0'/0'/0`. -/
def MultisigWallet.construct (requiredSignatures totalSigners : Int)
    (config : WalletConfig) : Except String MultisigWallet :=
  if requiredSignatures > totalSigners then
    Except.error "Invalid signature requirements"
  else
    Except.ok
      { requiredSignatures := requiredSignatures
        totalSigners := totalSigners
        network := testnet
        derivationPath := config.derivationPath.getD "m/49\x27/0\x27/0\x27/0"
        keyPairs := []
        redeemScript := none
        addresses := none }

/-- `generateKeyPair(index)`: generates a mnemonic with
`bip39.generateMnemonic(128)` (128-bit entropy, drawing fresh
randomness per call — modelled by indexing the provider with the slot
number), derives the seed, uses the flat path `${index}`, and derives
the child node; fails when the node carries no private key. -/
def MultisigWallet.generateKeyPair (P : Prims) (w : MultisigWallet)
    (index : Nat) : Except String KeyPairInfo :=
  let mnemonic := P.generateMnemonic 128 index
  let seed := P.mnemonicToSeed mnemonic
  let path := toString index
  let child := P.derivePath seed w.network path
  match child.privateKey with
  | none => Except.error "Failed to generate private key"
  | some sk =>
      Except.ok
        { mnemonic := mnemonic
          path := path
          publicKey := child.publicKey
          privateKey := some sk }

/-- The loop of `generateWallet`: generate a key pair per slot index and
push it onto `keyPairs`. -/
def MultisigWallet.pushKeyPairs (P : Prims) (w : MultisigWallet) :
    List Nat → Except String MultisigWallet
  | [] => Except.ok w
  | i :: rest =>
      match w.generateKeyPair P i with
      | Except.error e => Except.error e
      | Except.ok kp =>
          MultisigWallet.pushKeyPairs P
            { w with keyPairs := w.keyPairs ++ [kp] } rest

/-- `createMultisigAddresses`: builds the cached "redeem script" as the
P2PKH template of `publicKeys[0]` alone, the p2sh address from
hash160 of that script with the wallet's network version byte, and the
p2wsh address from the sha256 of the compiled
`OP_1 <pk_0> … <pk_{n-1}> OP_1 OP_CHECKMULTISIG` witness script.
An empty key list aborts (in the source, indexing `publicKeys[0]`
out of range makes the payment constructor fail). -/
def MultisigWallet.createMultisigAddresses (P : Prims)
    (w : MultisigWallet) : Except String MultisigWallet :=
  let publicKeys := w.keyPairs.map (fun kp => kp.publicKey)
  match publicKeys.head? with
  | none => Except.error "Failed to create redeem script"
  | some pk0 =>
      let redeemScript := p2pkhOutput P pk0
      let p2shAddr := Addr.base58 w.network.scriptHash (P.hash160 redeemScript)
      let wshScript :=
        compile ([Chunk.op OP_1] ++ publicKeys.map Chunk.data
          ++ [Chunk.op OP_1, Chunk.op OP_CHECKMULTISIG])
      let p2wshAddr := Addr.bech32 w.network.bech32Hrp 0 (P.sha256 wshScript)
      Except.ok
        { w with
          redeemScript := some redeemScript
          addresses := some ⟨p2shAddr, p2wshAddr⟩ }

/-- `generateWallet()`: generate `totalSigners` key pairs, then create
the multisig addresses. -/
def MultisigWallet.generateWallet (P : Prims) (w : MultisigWallet) :
    Except String MultisigWallet :=
  match MultisigWallet.pushKeyPairs P w (List.range w.totalSigners.toNat) with
  | Except.error e => Except.error e
  | Except.ok w2 => MultisigWallet.createMultisigAddresses P w2

/-- `getDerivationPaths()`. -/
def MultisigWallet.getDerivationPaths (w : MultisigWallet) : List String :=
  w.keyPairs.map (fun kp => kp.path)

/-- `getPublicKeys()`. -/
def MultisigWallet.getPublicKeys (w : MultisigWallet) : List (List Nat) :=
  w.keyPairs.map (fun kp => kp.publicKey)

/-- `getMnemonics()`. -/
def MultisigWallet.getMnemonics (w : MultisigWallet) : List (List String) :=
  w.keyPairs.map (fun kp => kp.mnemonic)

/-- `getRedeemScript()`: throws "Redeem script not initialized" when the
cache is unset, otherwise returns the cached script. -/
def MultisigWallet.getRedeemScript (w : MultisigWallet) :
    Except String (List Nat) :=
  match w.redeemScript with
  | none => Except.error "Redeem script not initialized"
  | some s => Except.ok s

/-- `getAddresses()`: returns the cached address pair, or `undefined`
(`none`) when `generateWallet` has not run. -/
def MultisigWallet.getAddresses (w : MultisigWallet) : Option Addresses :=
  w.addresses

/-- Observable steps of `signTransaction`, recorded in source order so
the placement of validation against cryptographic work is visible. -/
inductive SignEv where
  | parsedTx
  | computedSigHash
  | signedDigest
  | wroteInputScript
deriving DecidableEq

/-- `signTransaction(txHex, inputIndex, keyPair)`, with its event trace.
Source order: parse the hex; compute `hashForSignature(inputIndex,
redeemScript!, SIGHASH_NONE)` (a `TypeError` when the redeem script
cache is unset, and the constant `ONE` — not an error — when the index
is out of range); only then check the private key ("Private key not
found"); sign the digest raw; compile `[signature, publicKey]` as the
input script and write it with `setInputScript`, which faults with a
`TypeError` on an out-of-range index. -/
def MultisigWallet.signTransaction (P : Prims) (w : MultisigWallet)
    (txHex : String) (inputIndex : Nat) (keyPair : KeyPairInfo) :
    List SignEv × Except String Tx :=
  match P.parseTx txHex with
  | none => ([], Except.error "TypeError")
  | some tx =>
      match w.redeemScript with
      | none => ([SignEv.parsedTx], Except.error "TypeError")
      | some redeemScript =>
          let hashType := SIGHASH_NONE
          let signatureHash := tx.hashForSignature P inputIndex redeemScript hashType
          match keyPair.privateKey with
          | none =>
              ([SignEv.parsedTx, SignEv.computedSigHash],
               Except.error "Private key not found")
          | some sk =>
              let signature := P.ecSign sk signatureHash
              let script := compile [Chunk.data signature, Chunk.data keyPair.publicKey]
              if inputIndex < tx.ins.length then
                ([SignEv.parsedTx, SignEv.computedSigHash,
                  SignEv.signedDigest, SignEv.wroteInputScript],
                 Except.ok ⟨tx.ins.set inputIndex script⟩)
              else
                ([SignEv.parsedTx, SignEv.computedSigHash, SignEv.signedDigest],
                 Except.error "TypeError")

/-- Byte-lexicographic comparison of byte strings (BIP67 key order). -/
def lexLe : List Nat → List Nat → Bool
  | [], _ => true
  | _ :: _, [] => false
  | a :: as, b :: bs =>
      if a < b then true
      else if b < a then false
      else lexLe as bs

/-- Whether consecutive byte strings are in ascending byte-lexicographic
order. -/
def pairwiseSortedBool : List (List Nat) → Bool
  | [] => true
  | [_] => true
  | a :: b :: t => lexLe a b && pairwiseSortedBool (b :: t)

/-- Extract the success value of an `Except`, with a fallback. -/
def okOr {α : Type} (e : Except String α) (d : α) : α :=
  match e with
  | Except.ok a => a
  | Except.error _ => d

/-- A concrete primitive provider used to evaluate the wallet at
explicit inputs.  `generateMnemonic` honours the BIP39 word count
`(strength + strength / 32) / 11`; `derivePath` yields a fixed 33-byte
compressed point with a private key; `sigHash` records the sighash-type
flag it was asked to commit to as the digest's first byte and `ecSign`
returns its digest unchanged, so the produced signature element shows
which flag reached the digest computation; `parseTx` yields a
one-input transaction. -/
def P0 : Prims :=
  { generateMnemonic := fun strength _ =>
      List.replicate ((strength + strength / 32) / 11) "word"
    mnemonicToSeed := fun _ => List.replicate 64 0
    derivePath := fun _ _ _ =>
      ⟨2 :: List.replicate 32 0, some (List.replicate 32 1)⟩
    hash160 := fun _ => List.replicate 20 0
    sha256 := fun _ => List.replicate 32 0
    sigHash := fun _ _ _ hashType => hashType :: List.replicate 63 0
    ecSign := fun _ digest => digest
    parseTx := fun _ => some ⟨[[]]⟩ }

/-- A provider identical to `P0` except that the BIP32 node derived for
path "0" has a lexicographically larger public key than the one for any
other path, so generation order and sorted order disagree. -/
def P7 : Prims :=
  { P0 with
    derivePath := fun _ _ path =>
      if path = "0" then ⟨3 :: List.replicate 32 0, some (List.replicate 32 1)⟩
      else ⟨2 :: List.replicate 32 0, some (List.replicate 32 1)⟩ }

/-- The wallet `new MultisigWallet(2, 3)` (2-of-3 policy). -/
def W23 : MultisigWallet :=
  okOr (MultisigWallet.construct 2 3 emptyConfig) default

/-- `W23` after `generateWallet()` under provider `P0`. -/
def W23g : MultisigWallet := okOr (W23.generateWallet P0) default

/-- The key-pair record of signer slot 0 in `W23g` (as produced by
`generateKeyPair(0)` under `P0`). -/
def kp0 : KeyPairInfo :=
  ⟨List.replicate 12 "word", "0", 2 :: List.replicate 32 0,
   some (List.replicate 32 1)⟩

/-- A key-pair record holding only another party's public share. -/
def kpNoPriv : KeyPairInfo :=
  ⟨List.replicate 12 "word", "0", 2 :: List.replicate 32 0, none⟩

/-- The raw signature element `signTransaction` embeds under `P0`: the
unencoded 64-byte digest, whose first byte records the sighash flag the
digest was computed with. -/
def sig0 : List Nat := SIGHASH_NONE :: List.replicate 63 0

/-- The compressed public key every `P0`-derived node carries. -/
def pkA : List Nat := 2 :: List.replicate 32 0

/-- The bytes `createMultisigAddresses` caches as "redeem script" under
`P0`: the P2PKH template of `pkA`. -/
def rs0 : List Nat := p2pkhOutput P0 pkA

/-- The wallet `new MultisigWallet(1, 2)` generated under `P7`. -/
def W12g : MultisigWallet :=
  okOr ((okOr (MultisigWallet.construct 1 2 emptyConfig) default).generateWallet P7) default

/-- The wallet constructed with an explicit production-network config,
`new MultisigWallet(2, 3, { network: bitcoin })`. -/
def Wprod : MultisigWallet :=
  okOr (MultisigWallet.construct 2 3 ⟨some bitcoinNet, none⟩) default

/-- `Wprod` after `generateWallet()` under `P0`. -/
def Wprodg : MultisigWallet := okOr (Wprod.generateWallet P0) default

/-- The wallet `new MultisigWallet(1, 1)`, not yet generated. -/
def W11 : MultisigWallet :=
  okOr (MultisigWallet.construct 1 1 emptyConfig) default

/-- `W11` after `generateWallet()` under `P0`. -/
def W11g : MultisigWallet := okOr (W11.generateWallet P0) default

/-- C1: the claim says the cached redeem script of a wallet with policy
(m, n), 1 ≤ m ≤ n ≤ 15, decompiles to n + 3 elements
`OP_m, pk_0, …, pk_{n-1}, OP_n, OP_CHECKMULTISIG`.  Evaluating the code
at the failing input (m, n) = (2, 3): the cached script is the P2PKH
template of the first public key alone — it decompiles to 5 elements
starting with OP_DUP, not to 3 + 3 = 6 multisig elements. -/
theorem C1_redeem_script_is_p2pkh_not_multisig :
    (MultisigWallet.getRedeemScript W23g).map decompile
      = Except.ok (some [Chunk.op OP_DUP, Chunk.op OP_HASH160,
          Chunk.data (List.replicate 20 0), Chunk.op OP_EQUALVERIFY,
          Chunk.op OP_CHECKSIG])
    ∧ [Chunk.op OP_DUP, Chunk.op OP_HASH160,
        Chunk.data (List.replicate 20 0), Chunk.op OP_EQUALVERIFY,
        Chunk.op OP_CHECKSIG].length ≠ 3 + 3
    ∧ Chunk.op OP_DUP ≠ Chunk.op (OP_RESERVED + 2) := by
  exact ⟨rfl, by decide, by decide⟩

/-- C2: the claim says every signature digest uses SIGHASH_ALL and the
embedded signature element is DER with a trailing 0x01 byte.
Evaluating `signTransaction` at a one-input transaction under `P0`
(whose `sigHash` records the requested flag as the digest's first byte
and whose `ecSign` is the identity): the embedded signature element is
the raw 64-byte digest `SIGHASH_NONE :: 0…0` — the digest was requested
with SIGHASH_NONE, the element's first byte is not the DER tag 0x30,
and its last byte is 0, not the SIGHASH_ALL flag 0x01. -/
theorem C2_sighash_none_and_raw_signature :
    ((W23g.signTransaction P0 "0100" 0 kp0).2.map (fun tx => tx.ins.map decompile))
      = Except.ok [some [Chunk.data sig0, Chunk.data pkA]]
    ∧ sig0.head? = some SIGHASH_NONE
    ∧ SIGHASH_NONE ≠ SIGHASH_ALL
    ∧ sig0.getLast? ≠ some SIGHASH_ALL
    ∧ sig0.head? ≠ some 48 := by
  exact ⟨rfl, rfl, by decide, by decide, by decide⟩

/-- C3: the claim says construction fails with InvalidPolicy whenever
m > n, m < 1 or n < 1.  The constructor rejects only m > n (error
"Invalid signature requirements"); at the failing input (m, n) = (0, 2)
it succeeds, silently accepting a 0-of-2 policy. -/
theorem C3_zero_required_policy_accepted :
    MultisigWallet.construct 0 2 emptyConfig
      = Except.ok ⟨0, 2, testnet, "m/49\x27/0\x27/0\x27/0", [], none, none⟩
    ∧ MultisigWallet.construct 3 2 emptyConfig
      = Except.error "Invalid signature requirements" := by
  exact ⟨rfl, rfl⟩

/-- C4: the claim says a signed input's unlocking script is
`OP_0, signatures…, redeemScript`.  Evaluating the code at a one-input
transaction: the written script decompiles to exactly the two elements
`[signature, publicKey]` — it does not begin with the OP_0 placeholder
and its final element is the 33-byte public key, not the wallet's
cached redeem script bytes. -/
theorem C4_unlocking_script_lacks_placeholder_and_redeem :
    ((W23g.signTransaction P0 "0100" 0 kp0).2.map (fun tx => tx.ins.map decompile))
      = Except.ok [some [Chunk.data sig0, Chunk.data pkA]]
    ∧ [Chunk.data sig0, Chunk.data pkA].head? ≠ some (Chunk.op OP_0)
    ∧ MultisigWallet.getRedeemScript W23g = Except.ok rs0
    ∧ [Chunk.data sig0, Chunk.data pkA].getLast? ≠ some (Chunk.data rs0) := by
  exact ⟨rfl, by decide, rfl, by decide⟩

/-- C5: the claim says every recorded derivation path equals
`m/48'/0'/0'/2'/{index}`.  The code derives with the flat path
`${index}`: the generated 2-of-3 wallet records paths
["0", "1", "2"], and "0" is not "m/48'/0'/0'/2'/0". -/
theorem C5_flat_derivation_path :
    W23g.getDerivationPaths = ["0", "1", "2"]
    ∧ ("0" : String) ≠ "m/48\x27/0\x27/0\x27/2\x27/0" := by
  exact ⟨rfl, by decide⟩

/-- C6: the claim says every mnemonic is backed by 256-bit entropy and
has 24 words.  The code calls `generateMnemonic(128)`; under any
provider honouring the BIP39 word count (P0 computes
`(strength + strength / 32) / 11`), every generated mnemonic of the
2-of-3 wallet has 12 words, not 24. -/
theorem C6_twelve_word_mnemonics :
    W23g.getMnemonics.map List.length = [12, 12, 12]
    ∧ (128 + 128 / 32) / 11 = 12
    ∧ (12 : Nat) ≠ 24 := by
  exact ⟨rfl, by decide, by decide⟩

/-- C7: the claim says the wallet's public keys are always in
byte-lexicographic sorted order regardless of generation order.  Under
provider `P7`, whose slot-0 key is lexicographically larger than the
slot-1 key, the generated 1-of-2 wallet returns its keys in generation
order `[3‥, 2‥]`, which is not sorted (and the cached "redeem script"
embeds no key list at all, being a P2PKH template). -/
theorem C7_public_keys_not_sorted :
    W12g.getPublicKeys = [3 :: List.replicate 32 0, 2 :: List.replicate 32 0]
    ∧ pairwiseSortedBool W12g.getPublicKeys = false := by
  exact ⟨rfl, rfl⟩

/-- C8: the claim says a missing private key fails with
MissingPrivateKey and an out-of-range input index fails with
InvalidInputIndex, both before any signature-hash computation.
Evaluating the code: with no private key the trace already contains the
sighash computation before the "Private key not found" error is raised;
with index 1 on a one-input transaction no validation fires at all —
the digest is computed (as the library's constant ONE) and the digest
signed, and the call only dies afterwards with a TypeError when writing
the input script. -/
theorem C8_validation_after_hashing_and_no_index_check :
    W23g.signTransaction P0 "0100" 0 kpNoPriv
      = ([SignEv.parsedTx, SignEv.computedSigHash],
         Except.error "Private key not found")
    ∧ W23g.signTransaction P0 "0100" 1 kp0
      = ([SignEv.parsedTx, SignEv.computedSigHash, SignEv.signedDigest],
         Except.error "TypeError") := by
  exact ⟨rfl, rfl⟩

/-- C9: the claim says a wallet constructed with production-network
parameters produces production-prefixed addresses.  The constructor
hard-codes `bitcoin.networks.testnet` and ignores `config.network`:
constructed with the production network, the wallet's network is still
testnet, and the generated addresses carry the testnet script-hash
version byte 196 and bech32 prefix "tb" instead of the production 5
and "bc". -/
theorem C9_network_config_ignored :
    Wprod.network = testnet
    ∧ Wprodg.getAddresses
        = some ⟨Addr.base58 196 (List.replicate 20 0),
                Addr.bech32 "tb" 0 (List.replicate 32 0)⟩
    ∧ testnet.scriptHash ≠ bitcoinNet.scriptHash
    ∧ testnet.bech32Hrp ≠ bitcoinNet.bech32Hrp := by
  exact ⟨rfl, rfl, by decide, by decide⟩

/-- C10: before `generateWallet` runs, `getRedeemScript` throws
"Redeem script not initialized" and `getAddresses` returns `undefined`;
after a successful `generateWallet`, `getRedeemScript` returns the
cached script without error. -/
theorem C10_redeem_script_lifecycle
    (m n : Int) (cfg : WalletConfig) (P : Prims) (w w2 : MultisigWallet)
    (hc : MultisigWallet.construct m n cfg = Except.ok w)
    (hg : w.generateWallet P = Except.ok w2) :
    w.getRedeemScript = Except.error "Redeem script not initialized"
    ∧ w.getAddresses = none
    ∧ ∃ s, w2.redeemScript = some s ∧ w2.getRedeemScript = Except.ok s := by
  have hw : w.redeemScript = none ∧ w.addresses = none := by
    unfold MultisigWallet.construct at hc
    split at hc
    · cases hc
    · cases hc
      exact ⟨rfl, rfl⟩
  refine ⟨?_, ?_, ?_⟩
  · unfold MultisigWallet.getRedeemScript
    rw [hw.1]
  · exact hw.2
  · unfold MultisigWallet.generateWallet at hg
    split at hg
    · cases hg
    · unfold MultisigWallet.createMultisigAddresses at hg
      dsimp only at hg
      split at hg
      · cases hg
      · cases hg
        exact ⟨_, rfl, rfl⟩

/-- Witness for C10 at the concrete wallet `new MultisigWallet(1, 1)`
generated under `P0`. -/
theorem C10_redeem_script_lifecycle_witness :
    W11.getRedeemScript = Except.error "Redeem script not initialized"
    ∧ W11.getAddresses = none
    ∧ ∃ s, W11g.redeemScript = some s ∧ W11g.getRedeemScript = Except.ok s :=
  C10_redeem_script_lifecycle 1 1 emptyConfig P0 W11 W11g rfl rfl
